import Mathlib

/-!
Verification development for the movie-catalog backend (FastAPI + SQLAlchemy).

The definitions below are a shallow embedding of the route handlers in
`app/routes/movies.py` and `app/routes/profiles.py`, the ORM entity
declarations in `app/db/models/movies.py`, and the request schemas in
`app/schemas/movies.py`.  The relational store is modelled as explicit
lists of rows; a request handler is a function from the committed database
state (plus request parameters) to the new committed state and a response.
SQL semantics (joins, implicit cross joins derived from WHERE criteria,
ILIKE substring matching, ORDER BY ... DESC, OFFSET/LIMIT) are spelled out
as list operations.  Numeric columns declared FLOAT/DECIMAL are modelled
as rationals.
-/

/-- Character-level matching of a pattern at the head of a text
(used to build the SQL ILIKE `%pat%` substring semantics). -/
def matchHere : List Char → List Char → Bool
  | [], _ => true
  | _ :: _, [] => false
  | p :: ps, c :: cs => p == c && matchHere ps cs

/-- Occurrence of `pat` as a contiguous run inside `l`. -/
def occursIn (pat : List Char) : List Char → Bool
  | [] => pat.isEmpty
  | c :: cs => matchHere pat (c :: cs) || occursIn pat cs

/-- SQL `column ILIKE .%pat%.`: case-insensitive substring containment. -/
def icontains (hay pat : String) : Bool :=
  occursIn (pat.toList.map Char.toLower) (hay.toList.map Char.toLower)

/-- Fresh autoincrement id: one more than the largest id in use. -/
def freshId (ids : List Nat) : Nat := ids.foldr max 0 + 1

/-- Python `str.title()` on ASCII text: an alphabetic character is
uppercased when the previous character is not alphabetic and lowercased
otherwise (`app/schemas/movies.py`, `normalize_list_fields`). -/
def titleAux : Bool → List Char → List Char
  | _, [] => []
  | prevAlpha, c :: cs =>
    if c.isAlpha then
      (if prevAlpha then c.toLower else c.toUpper) :: titleAux true cs
    else
      c :: titleAux false cs

/-- Python `str.title()` (ASCII model). -/
def pyTitle (s : String) : String := ⟨titleAux false s.toList⟩

/-- Row of the `genres`, `directors` or `stars` table: an autoincrement id
and a unique name (`GenreModel` / `DirectorModel` / `StarModel`). -/
structure NamedRow where
  id : Nat
  name : String
deriving DecidableEq

/-- Row of the `certifications` table; its name column is nullable
(`CertificationModel`). -/
structure CertRow where
  id : Nat
  name : Option String
deriving DecidableEq

/-- Row of the `movies` table (`MovieModel`).  FLOAT and DECIMAL columns
are modelled as rationals; `meta_score` and `gross` are nullable. -/
structure Movie where
  id : Nat
  uuid : String
  name : String
  year : Int
  time : Int
  imdb : Rat
  votes : Int
  meta_score : Option Rat
  gross : Option Rat
  description : String
  price : Rat
  certification_id : Nat
deriving DecidableEq

/-- The relational store: the movie tables and the three many-to-many
link tables (`movies_genres`, `movies_directors`, `movies_stars`),
each link row a (movie_id, other_id) pair. -/
structure MovieDB where
  movies : List Movie
  genres : List NamedRow
  directors : List NamedRow
  stars : List NamedRow
  certifications : List CertRow
  movieGenres : List (Nat × Nat)
  movieDirectors : List (Nat × Nat)
  movieStars : List (Nat × Nat)
deriving DecidableEq

/-- Query parameters of `GET /movies/` (`get_movie_list`): every filter is
optional. -/
structure ListFilters where
  year : Option Int := none
  min_imdb : Option Rat := none
  max_imdb : Option Rat := none
  genre : Option String := none
  director : Option String := none
  star : Option String := none
  search : Option String := none
  sort_by : Option String := none
deriving DecidableEq

/-- Python truthiness of an optional int parameter (`if year:`):
`None` and `0` are both falsy. -/
def truthyInt : Option Int → Bool
  | none => false
  | some v => v != 0

/-- Python truthiness of an optional float parameter: `None` and `0` falsy. -/
def truthyRat : Option Rat → Bool
  | none => false
  | some v => v != 0

/-- Python truthiness of an optional string parameter: `None` and `""` falsy. -/
def truthyStr : Option String → Bool
  | none => false
  | some s => s != ""

/-- List concatenation of the images of `f`: the row multiset produced by
a SQL join step. -/
def concatMap (f : α → List β) : List α → List β
  | [] => []
  | a :: as => f a ++ concatMap f as

/-- Rows of `directors` reachable from a movie through `movies_directors`
(the JOIN path of the relationship). -/
def linkedDirectors (db : MovieDB) (m : Movie) : List NamedRow :=
  concatMap (fun p => if p.1 == m.id then db.directors.filter (fun d => d.id == p.2) else [])
    db.movieDirectors

/-- Rows of `stars` reachable from a movie through `movies_stars`. -/
def linkedStars (db : MovieDB) (m : Movie) : List NamedRow :=
  concatMap (fun p => if p.1 == m.id then db.stars.filter (fun s => s.id == p.2) else [])
    db.movieStars

/-- Rows of `genres` reachable from a movie through `movies_genres`. -/
def linkedGenres (db : MovieDB) (m : Movie) : List NamedRow :=
  concatMap (fun p => if p.1 == m.id then db.genres.filter (fun g => g.id == p.2) else [])
    db.movieGenres

/-- LEFT OUTER JOIN row choices: a movie with no linked rows keeps one
row with NULL on the joined side, otherwise one row per linked row. -/
def ljChoices (xs : List NamedRow) : List (Option NamedRow) :=
  match xs with
  | [] => [none]
  | _ => xs.map some

/-- The OR condition of the free-text `search` filter, over one row of the
outer-joined (movie, director?, star?) tuple. -/
def searchHit (q : String) (m : Movie) (d s : Option NamedRow) : Bool :=
  icontains m.name q || icontains m.description q
    || (match d with | some dd => icontains dd.name q | none => false)
    || (match s with | some ss => icontains ss.name q | none => false)

/-- Row multiset of the page-fetch SELECT of `get_movie_list` before
ordering: each `if` mirrors one truthiness-guarded filter of the source,
in source order; join-based filters multiply a movie by its matching
linked rows (no DISTINCT is applied in the source). -/
def filteredRows (db : MovieDB) (f : ListFilters) : List Movie :=
  let rows := db.movies
  let rows := if truthyInt f.year then
      rows.filter (fun m => m.year == f.year.getD 0) else rows
  let rows := if truthyRat f.min_imdb then
      rows.filter (fun m => f.min_imdb.getD 0 ≤ m.imdb) else rows
  let rows := if truthyRat f.max_imdb then
      rows.filter (fun m => m.imdb ≤ f.max_imdb.getD 0) else rows
  let rows := if truthyStr f.director then
      concatMap (fun m =>
        ((linkedDirectors db m).filter
          (fun d => icontains d.name (f.director.getD ""))).map (fun _ => m)) rows
    else rows
  let rows := if truthyStr f.star then
      concatMap (fun m =>
        ((linkedStars db m).filter
          (fun s => icontains s.name (f.star.getD ""))).map (fun _ => m)) rows
    else rows
  let rows := if truthyStr f.genre then
      concatMap (fun m =>
        ((linkedGenres db m).filter
          (fun g => icontains g.name (f.genre.getD ""))).map (fun _ => m)) rows
    else rows
  let rows := if truthyStr f.search then
      concatMap (fun m =>
        concatMap (fun d =>
          concatMap (fun s =>
            if searchHit (f.search.getD "") m d s then [m] else [])
            (ljChoices (linkedStars db m)))
          (ljChoices (linkedDirectors db m))) rows
    else rows
  rows

/-- Descending sort value used by ORDER BY: a recognized `sort_by` key
selects that column, anything else falls back to the default order
(`MovieModel.default_order_by`, the internal id). -/
def sortVal (f : ListFilters) (m : Movie) : Rat :=
  match f.sort_by with
  | some "price" => m.price
  | some "year" => (m.year : Rat)
  | some "votes" => (m.votes : Rat)
  | _ => (m.id : Rat)

/-- Stable insertion for a descending sort. -/
def insertDesc (key : Movie → Rat) (m : Movie) : List Movie → List Movie
  | [] => [m]
  | x :: xs => if key x < key m then m :: x :: xs else x :: insertDesc key m xs

/-- Stable descending sort (ORDER BY key DESC). -/
def sortDesc (key : Movie → Rat) : List Movie → List Movie
  | [] => []
  | m :: ms => insertDesc key m (sortDesc key ms)

/-- The ordered row list of the page-fetch SELECT, before OFFSET/LIMIT. -/
def fetchAllRows (db : MovieDB) (f : ListFilters) : List Movie :=
  sortDesc (sortVal f) (filteredRows db f)

/-- WHERE condition of the count statement evaluated on one tuple of its
FROM product; `d`, `s`, `g` are the directors/stars/genres rows of the
tuple (NULL when the table is not part of the FROM clause). -/
def countPred (f : ListFilters) (m : Movie) (d s g : Option NamedRow) : Bool :=
  (!truthyInt f.year || m.year == f.year.getD 0)
  && (!truthyRat f.min_imdb || decide (f.min_imdb.getD 0 ≤ m.imdb))
  && (!truthyRat f.max_imdb || decide (m.imdb ≤ f.max_imdb.getD 0))
  && (!truthyStr f.director ||
        (match d with | some dd => icontains dd.name (f.director.getD "") | none => false))
  && (!truthyStr f.star ||
        (match s with | some ss => icontains ss.name (f.star.getD "") | none => false))
  && (!truthyStr f.genre ||
        (match g with | some gg => icontains gg.name (f.genre.getD "") | none => false))
  && (!truthyStr f.search || searchHit (f.search.getD "") m d s)

/-- Result of the count statement of `get_movie_list`:
`select(func.count(MovieModel.id)).where(*stmt._where_criteria)` copies
only the WHERE criteria of the list statement, never its JOIN clauses, so
the FROM clause is derived from the column references alone — `movies`
plus every lookup table mentioned by some criterion, combined as an
implicit cross join with no link condition. -/
def countRows (db : MovieDB) (f : ListFilters) : Nat :=
  let dirRef := truthyStr f.director || truthyStr f.search
  let starRef := truthyStr f.star || truthyStr f.search
  let genRef := truthyStr f.genre
  let dChoices : List (Option NamedRow) := if dirRef then db.directors.map some else [none]
  let sChoices : List (Option NamedRow) := if starRef then db.stars.map some else [none]
  let gChoices : List (Option NamedRow) := if genRef then db.genres.map some else [none]
  (concatMap (fun m =>
    concatMap (fun d =>
      concatMap (fun s =>
        (gChoices.filter (fun g => countPred f m d s g)).map (fun _ => m.id))
        sChoices)
      dChoices)
    db.movies).length

/-- Outcomes a handler can raise (the HTTPException branches). -/
inductive ApiError where
  | notFound (detail : String)
  | conflict (detail : String)
  | badRequest (detail : String)
  | unauthorized (detail : String)
  | forbidden (detail : String)
  | internal (detail : String)
deriving DecidableEq

/-- Body of a successful `GET /movies/` response
(`MovieListResponseSchema`). -/
structure MovieListResponse where
  movies : List Movie
  prev_page : Option String
  next_page : Option String
  total_pages : Nat
  total_items : Nat
deriving DecidableEq

/-- Page link as interpolated in the source:
`f"/movies/?page={p}&per_page={per_page}"`. -/
def pageLink (p per_page : Nat) : String :=
  "/movies/?page=" ++ toString p ++ "&per_page=" ++ toString per_page

/-- Handler of `GET /movies/` (`get_movie_list`): compute the count first,
404 when it is zero, then fetch the page with OFFSET/LIMIT and build the
pagination links. -/
def get_movie_list (db : MovieDB) (page per_page : Nat) (f : ListFilters) :
    Except ApiError MovieListResponse :=
  let offset := (page - 1) * per_page
  let total_items := countRows db f
  if total_items = 0 then
    .error (.notFound "No movies found.")
  else
    let rows := ((fetchAllRows db f).drop offset).take per_page
    let total_pages := (total_items + per_page - 1) / per_page
    .ok
      { movies := rows
        prev_page := if page > 1 then some (pageLink (page - 1) per_page) else none
        next_page := if page < total_pages then some (pageLink (page + 1) per_page) else none
        total_pages := total_pages
        total_items := total_items }

/-- The combined filter predicate as the specification states it, used to
compare the handler against the spec: each present filter must hold of the
movie itself, join filters through an existing linked row, search as the
documented OR. -/
def movieMatchesSpec (db : MovieDB) (f : ListFilters) (m : Movie) : Bool :=
  (match f.year with | none => true | some y => m.year == y)
  && (match f.min_imdb with | none => true | some v => decide (v ≤ m.imdb))
  && (match f.max_imdb with | none => true | some v => decide (m.imdb ≤ v))
  && (match f.director with
      | none => true
      | some q => (linkedDirectors db m).any (fun d => icontains d.name q))
  && (match f.star with
      | none => true
      | some q => (linkedStars db m).any (fun s => icontains s.name q))
  && (match f.genre with
      | none => true
      | some q => (linkedGenres db m).any (fun g => icontains g.name q))
  && (match f.search with
      | none => true
      | some q => icontains m.name q || icontains m.description q
          || (linkedDirectors db m).any (fun d => icontains d.name q)
          || (linkedStars db m).any (fun s => icontains s.name q))

/-- Store with one movie linked to two of three genres; exercises the
count/fan-out behavior of the list endpoint. -/
def exDB : MovieDB :=
  { movies := [{ id := 1, uuid := "u1", name := "Inception", year := 2010, time := 148,
                 imdb := 8, votes := 1000, meta_score := none, gross := none,
                 description := "dream heist", price := 10, certification_id := 1 }]
    genres := [⟨1, "Action"⟩, ⟨2, "Drama"⟩, ⟨3, "Horror"⟩]
    directors := []
    stars := []
    certifications := [⟨1, some "PG"⟩]
    movieGenres := [(1, 1), (1, 2)]
    movieDirectors := []
    movieStars := [] }

/-- Genre-substring filter matching two genre names of `exDB`. -/
def gFilA : ListFilters := { genre := some "a" }

/-- Genre-substring filter matching only the genre no movie is linked to. -/
def gFilH : ListFilters := { genre := some "horror" }

/-- C1: the count query of `get_movie_list` copies the WHERE criteria but
not the JOINs, so a genre filter cross-joins `movies` with `genres`: on a
store with one matching movie and two genre names containing "a", the
endpoint reports `total_items = 2` although exactly one distinct movie
satisfies the combined filter predicate. -/
theorem count_query_inflated_by_cross_join :
    countRows exDB gFilA = 2
    ∧ (exDB.movies.filter (fun m => movieMatchesSpec exDB gFilA m)).length = 1
    ∧ (get_movie_list exDB 1 10 gFilA).toOption.map MovieListResponse.total_items = some 2 := by
  decide

/-- C2: on `exDB` with filter genre="a", the single result page (page 1 of
total_pages = 1) contains movie id 1 twice — join fan-out duplicates the
one matching movie — so concatenating all pages does not yield distinct
movies, contrary to the pagination property. -/
theorem pagination_duplicates_from_fan_out :
    (get_movie_list exDB 1 10 gFilA).toOption.map
        (fun r => (r.movies.map Movie.id, r.total_items, r.total_pages))
      = some ([1, 1], 2, 1)
    ∧ (exDB.movies.filter (fun m => movieMatchesSpec exDB gFilA m)).length = 1 := by
  decide

/-- C6: with filter genre="horror" no movie matches the predicate, but the
cross-joined count query returns 1 (one movie times one matching genre
name), so the handler returns a 200 success with an empty movie list
instead of the specified 404 "No movies found.". -/
theorem zero_matches_not_404 :
    (get_movie_list exDB 1 10 gFilH).toOption
      = some { movies := [], prev_page := none, next_page := none,
               total_pages := 1, total_items := 1 }
    ∧ (exDB.movies.filter (fun m => movieMatchesSpec exDB gFilH m)).length = 0 := by
  decide

/-- C10: supplying a numeric filter with value zero is indistinguishable
from omitting it — the handler tests filter presence with Python
truthiness (`if year:`), and `0` is falsy — so no WHERE condition is
added for `year=0`, `min_imdb=0` or `max_imdb=0`. -/
theorem zero_valued_filters_are_absent (db : MovieDB) (page per_page : Nat)
    (f : ListFilters) :
    get_movie_list db page per_page { f with year := some 0 }
      = get_movie_list db page per_page { f with year := none }
    ∧ get_movie_list db page per_page { f with min_imdb := some 0 }
      = get_movie_list db page per_page { f with min_imdb := none }
    ∧ get_movie_list db page per_page { f with max_imdb := some 0 }
      = get_movie_list db page per_page { f with max_imdb := none } :=
  ⟨rfl, rfl, rfl⟩

/-- Closed form of the list handler: the branch on the computed count and
the response record, with the pagination lets unfolded. -/
theorem get_movie_list_eq (db : MovieDB) (page per_page : Nat) (f : ListFilters) :
    get_movie_list db page per_page f =
      if countRows db f = 0 then .error (.notFound "No movies found.")
      else .ok
        { movies := ((fetchAllRows db f).drop ((page - 1) * per_page)).take per_page
          prev_page := if page > 1 then some (pageLink (page - 1) per_page) else none
          next_page := if page < (countRows db f + per_page - 1) / per_page
                       then some (pageLink (page + 1) per_page) else none
          total_pages := (countRows db f + per_page - 1) / per_page
          total_items := countRows db f } := rfl

/-- C7: in every successful list response the previous-page link is
present exactly when `page > 1` and the next-page link exactly when
`page < total_pages`, and each present link encodes the adjacent page
number together with `per_page` as query parameters. -/
theorem list_page_links (db : MovieDB) (f : ListFilters) (page per_page : Nat)
    (r : MovieListResponse) (h : get_movie_list db page per_page f = .ok r) :
    (r.prev_page.isSome ↔ page > 1)
    ∧ (page > 1 → r.prev_page = some (pageLink (page - 1) per_page))
    ∧ (r.next_page.isSome ↔ page < r.total_pages)
    ∧ (page < r.total_pages → r.next_page = some (pageLink (page + 1) per_page)) := by
  rw [get_movie_list_eq] at h
  by_cases h0 : countRows db f = 0
  · rw [if_pos h0] at h
    exact absurd h (by simp)
  · rw [if_neg h0] at h
    injection h with h
    subst h
    refine ⟨?_, ?_, ?_, ?_⟩
    · by_cases hp : page > 1 <;> simp [hp]
    · intro hp; simp [hp]
    · by_cases hn : page < (countRows db f + per_page - 1) / per_page <;> simp [hn]
    · intro hn; simp only at hn ⊢; simp [hn]

/-- Store with three movies (and no other rows) for exercising interior
pages of the list endpoint. -/
def exDB3 : MovieDB :=
  { movies :=
      [{ id := 1, uuid := "a1", name := "First", year := 2001, time := 100,
         imdb := 5, votes := 10, meta_score := none, gross := none,
         description := "one", price := 1, certification_id := 1 },
       { id := 2, uuid := "a2", name := "Second", year := 2002, time := 101,
         imdb := 6, votes := 20, meta_score := none, gross := none,
         description := "two", price := 2, certification_id := 1 },
       { id := 3, uuid := "a3", name := "Third", year := 2003, time := 102,
         imdb := 7, votes := 30, meta_score := none, gross := none,
         description := "three", price := 3, certification_id := 1 }]
    genres := [], directors := [], stars := []
    certifications := [⟨1, some "PG"⟩]
    movieGenres := [], movieDirectors := [], movieStars := [] }

/-- Response of `GET /movies/?page=2&per_page=1` on `exDB3`: an interior
page carrying both adjacent-page links. -/
def exResp3 : MovieListResponse :=
  { movies :=
      [{ id := 2, uuid := "a2", name := "Second", year := 2002, time := 101,
         imdb := 6, votes := 20, meta_score := none, gross := none,
         description := "two", price := 2, certification_id := 1 }]
    prev_page := some "/movies/?page=1&per_page=1"
    next_page := some "/movies/?page=3&per_page=1"
    total_pages := 3
    total_items := 3 }

/-- Witness for C7: on the concrete interior page 2 of 3 both links are
present and encode the adjacent page numbers with the page size. -/
theorem list_page_links_witness :
    ∃ r : MovieListResponse, get_movie_list exDB3 2 1 {} = .ok r
      ∧ r.prev_page = some (pageLink 1 1)
      ∧ r.next_page = some (pageLink 3 1) := by
  have h : get_movie_list exDB3 2 1 ({} : ListFilters) = .ok exResp3 := by rfl
  have hl := list_page_links exDB3 {} 2 1 exResp3 h
  exact ⟨exResp3, h, hl.2.1 (by decide), hl.2.2.2 (by decide)⟩

/-- ASCII single-quote character, used in the interpolated conflict
message of `create_movie`. -/
def sqch : String := String.singleton (Char.ofNat 39)

/-- The 409 detail of `create_movie`:
`f"A movie with the name .{name}. and release year .{year}. already exists."`. -/
def dupMovieMsg (name : String) (year : Int) : String :=
  "A movie with the name " ++ sqch ++ name ++ sqch ++ " and release year "
    ++ sqch ++ toString year ++ sqch ++ " already exists."

/-- Body of `POST /movies/` after field validation (`MovieCreateSchema`). -/
structure MovieCreateInput where
  uuid : Option String
  name : String
  year : Int
  time : Int
  imdb : Rat
  votes : Int
  meta_score : Option Rat
  gross : Option Rat
  description : String
  price : Rat
  genres : List String
  stars : List String
  directors : List String
  certification : String
deriving DecidableEq

/-- The `normalize_list_fields` validator of `MovieCreateSchema`: apply
`str.title()` to each element of the genres, stars and directors lists. -/
def normalizeCreate (raw : MovieCreateInput) : MovieCreateInput :=
  { raw with
    genres := raw.genres.map pyTitle
    stars := raw.stars.map pyTitle
    directors := raw.directors.map pyTitle }

/-- Look up a lookup-table row by exact name inside the transaction; if
absent, add (and flush) a fresh row, which later lookups in the same
transaction can see.  Returns the new table and the resolved row. -/
def lookupOrCreate (rows : List NamedRow) (n : String) : List NamedRow × NamedRow :=
  match rows.find? (fun r => r.name == n) with
  | some r => (rows, r)
  | none =>
    let r : NamedRow := ⟨freshId (rows.map NamedRow.id), n⟩
    (rows ++ [r], r)

/-- Resolve each name of the request list in order through
`lookupOrCreate`, threading the in-transaction table state. -/
def resolveNames (rows : List NamedRow) : List String → List NamedRow × List NamedRow
  | [] => (rows, [])
  | n :: ns =>
    let p := lookupOrCreate rows n
    let q := resolveNames p.1 ns
    (q.1, p.2 :: q.2)

/-- Look up the certification by exact name; create it when absent
(`certifications.name` is nullable, the lookup compares to the given
string). -/
def lookupOrCreateCert (rows : List CertRow) (n : String) : List CertRow × CertRow :=
  match rows.find? (fun c => c.name == some n) with
  | some c => (rows, c)
  | none =>
    let c : CertRow := ⟨freshId (rows.map CertRow.id), some n⟩
    (rows ++ [c], c)

/-- Handler of `POST /movies/` (`create_movie`).  The duplicate
(name, year) check runs before the transaction; certification, genres,
stars and directors are resolved or created (and flushed) in that order
inside the transaction; the movie row and its link rows are added and the
transaction commits.  `commitOk = false` is the environment oracle for an
IntegrityError raised at commit (uniqueness race or constraint
violation): the handler rolls the whole transaction back — the committed
state stays the input state — and answers the generic 400. -/
def create_movie (db : MovieDB) (raw : MovieCreateInput) (commitOk : Bool) :
    MovieDB × Except ApiError Movie :=
  let data := normalizeCreate raw
  match db.movies.find? (fun m => m.name == data.name && m.year == data.year) with
  | some _ => (db, .error (.conflict (dupMovieMsg data.name data.year)))
  | none =>
    let certP := lookupOrCreateCert db.certifications data.certification
    let genP := resolveNames db.genres data.genres
    let starP := resolveNames db.stars data.stars
    let dirP := resolveNames db.directors data.directors
    let mid := freshId (db.movies.map Movie.id)
    let movie : Movie :=
      { id := mid
        uuid := raw.uuid.getD ("movie-" ++ toString mid)
        name := data.name, year := data.year, time := data.time
        imdb := data.imdb, votes := data.votes
        meta_score := data.meta_score, gross := data.gross
        description := data.description, price := data.price
        certification_id := certP.2.id }
    cond commitOk
      ({ movies := db.movies ++ [movie]
         genres := genP.1
         directors := dirP.1
         stars := starP.1
         certifications := certP.1
         movieGenres := db.movieGenres ++ genP.2.map (fun g => (mid, g.id))
         movieDirectors := db.movieDirectors ++ dirP.2.map (fun d => (mid, d.id))
         movieStars := db.movieStars ++ starP.2.map (fun s => (mid, s.id)) },
       .ok movie)
      (db, .error (.badRequest "Invalid input data."))

/-- C5: a creation request whose (name, year) matches an existing movie is
rejected with the 409 conflict before the transaction starts: the whole
store — movies and every lookup table — is returned unchanged. -/
theorem duplicate_movie_conflict (db : MovieDB) (raw : MovieCreateInput) (ck : Bool)
    (m : Movie) (hm : m ∈ db.movies)
    (hname : m.name = raw.name) (hyear : m.year = raw.year) :
    create_movie db raw ck = (db, .error (.conflict (dupMovieMsg raw.name raw.year))) := by
  have hs : (db.movies.find?
      (fun x => x.name == raw.name && x.year == raw.year)).isSome := by
    rw [List.find?_isSome]
    exact ⟨m, hm, by simp [hname, hyear]⟩
  obtain ⟨m', hfind⟩ := Option.isSome_iff_exists.mp hs
  simp only [create_movie, normalizeCreate, hfind]

/-- Creation request clashing with the movie already stored in `exDB`. -/
def exDupCreate : MovieCreateInput :=
  { uuid := none, name := "Inception", year := 2010, time := 90, imdb := 7,
    votes := 5, meta_score := none, gross := none, description := "again",
    price := 3, genres := ["action"], stars := [], directors := [],
    certification := "PG" }

/-- Witness for C5 at a concrete store: creating "Inception" (2010) again
on `exDB` answers the 409 conflict and leaves the store untouched. -/
theorem duplicate_movie_conflict_witness :
    create_movie exDB exDupCreate true
      = (exDB, .error (.conflict (dupMovieMsg "Inception" 2010))) :=
  duplicate_movie_conflict exDB exDupCreate true
    { id := 1, uuid := "u1", name := "Inception", year := 2010, time := 148,
      imdb := 8, votes := 1000, meta_score := none, gross := none,
      description := "dream heist", price := 10, certification_id := 1 }
    (by decide) rfl rfl

/-- Creation request whose (name, year) is new to `exDB` (the §8 example:
"Dune", 2021, one new genre and certification). -/
def exNewCreate : MovieCreateInput :=
  { uuid := none, name := "Dune", year := 2021, time := 155, imdb := 8,
    votes := 100, meta_score := none, gross := none, description := "spice",
    price := 5, genres := ["sci-fi"], stars := [], directors := [],
    certification := "PG-13" }

/-- C4: when the commit of a creation transaction raises IntegrityError,
the whole transaction is rolled back — the committed store is exactly the
input store, so no certification, genre, director, star or movie row
created during the request survives — and the caller gets the generic 400
"Invalid input data." that names no constraint. -/
theorem integrity_error_rolls_back (db : MovieDB) (raw : MovieCreateInput)
    (h : db.movies.find? (fun m => m.name == raw.name && m.year == raw.year) = none) :
    create_movie db raw false = (db, .error (.badRequest "Invalid input data.")) := by
  simp only [create_movie, normalizeCreate, h, Bool.cond_false]

/-- Witness for C4: a failed commit of the "Dune" request on `exDB`
leaves `exDB` unchanged and answers the generic 400. -/
theorem integrity_error_rolls_back_witness :
    create_movie exDB exNewCreate false
      = (exDB, .error (.badRequest "Invalid input data.")) :=
  integrity_error_rolls_back exDB exNewCreate (by decide)

/-- Names genuinely new to a lookup table, kept in order of first
occurrence: the rows the resolution loop of `create_movie` must add. -/
def newNames (seen : List String) : List String → List String
  | [] => []
  | n :: ns => if n ∈ seen then newNames seen ns else n :: newNames (seen ++ [n]) ns

/-- Membership in `newNames`: exactly the requested names not already in
the table. -/
theorem mem_newNames (ns : List String) (seen : List String) (x : String) :
    x ∈ newNames seen ns ↔ (x ∈ ns ∧ x ∉ seen) := by
  induction ns generalizing seen with
  | nil => simp [newNames]
  | cons n ns ih =>
    by_cases h : n ∈ seen
    · simp only [newNames, if_pos h, ih, List.mem_cons]
      constructor
      · tauto
      · rintro ⟨rfl | hx, hs⟩
        · exact absurd h hs
        · exact ⟨hx, hs⟩
    · simp only [newNames, if_neg h, List.mem_cons, ih, List.mem_append,
        List.mem_singleton]
      constructor
      · rintro (rfl | ⟨hx, hs⟩)
        · exact ⟨Or.inl rfl, h⟩
        · exact ⟨Or.inr hx, fun hseen => hs (Or.inl hseen)⟩
      · rintro ⟨rfl | hx, hs⟩
        · exact Or.inl rfl
        · by_cases hxn : x = n
          · exact Or.inl hxn
          · exact Or.inr ⟨hx, by tauto⟩

/-- The genuinely new names are mutually distinct. -/
theorem newNames_nodup (ns : List String) (seen : List String) :
    (newNames seen ns).Nodup := by
  induction ns generalizing seen with
  | nil => simp [newNames]
  | cons n ns ih =>
    by_cases h : n ∈ seen
    · simp only [newNames, if_pos h]; exact ih seen
    · simp only [newNames, if_neg h]
      refine List.nodup_cons.mpr ⟨?_, ih _⟩
      intro hmem
      rcases (mem_newNames ns (seen ++ [n]) n).mp hmem with ⟨_, hns⟩
      exact hns (List.mem_append.mpr (Or.inr (by simp)))

/-- How many rows the loop adds: the number of distinct requested names
absent from the table. -/
theorem newNames_length (ns : List String) (seen : List String) :
    (newNames seen ns).length = (ns.toFinset \ seen.toFinset).card := by
  have h1 : (newNames seen ns).toFinset = ns.toFinset \ seen.toFinset := by
    ext x
    simp [List.mem_toFinset, mem_newNames, Finset.mem_sdiff]
  rw [← List.toFinset_card_of_nodup (newNames_nodup ns seen), h1]

/-- Effect of the resolution loop on the name column: the table keeps its
rows and appends exactly the genuinely new names, each once, at first
occurrence. -/
theorem resolveNames_names (ns : List String) (rows : List NamedRow) :
    ((resolveNames rows ns).1).map NamedRow.name
      = rows.map NamedRow.name ++ newNames (rows.map NamedRow.name) ns := by
  induction ns generalizing rows with
  | nil => simp [resolveNames, newNames]
  | cons n ns ih =>
    rcases hfind : rows.find? (fun r => r.name == n) with _ | r
    · have hnot : n ∉ rows.map NamedRow.name := by
        rw [List.find?_eq_none] at hfind
        intro hmem
        rcases List.mem_map.mp hmem with ⟨r, hr, hrn⟩
        exact (hfind r hr) (by simp [hrn])
      simp only [resolveNames, lookupOrCreate, hfind]
      rw [ih]
      simp [newNames, hnot, List.append_assoc]
    · have hmem : n ∈ rows.map NamedRow.name := by
        have hpr := List.find?_some hfind
        have hr := List.mem_of_find?_eq_some hfind
        exact List.mem_map.mpr ⟨r, hr, by simpa using hpr⟩
      simp only [resolveNames, lookupOrCreate, hfind]
      rw [ih]
      simp [newNames, hmem]

/-- Per-table consequences of the resolution loop: name uniqueness is
preserved, the row count grows by exactly the number of genuinely new
names, and every requested name ends up present. -/
theorem resolveNames_props (rows : List NamedRow) (ns : List String)
    (hnd : (rows.map NamedRow.name).Nodup) :
    (((resolveNames rows ns).1).map NamedRow.name).Nodup
    ∧ (resolveNames rows ns).1.length
        = rows.length + (ns.toFinset \ (rows.map NamedRow.name).toFinset).card
    ∧ ∀ n ∈ ns, n ∈ ((resolveNames rows ns).1).map NamedRow.name := by
  refine ⟨?_, ?_, ?_⟩
  · rw [resolveNames_names]
    exact hnd.append (newNames_nodup ns _)
      (fun x hx hy => ((mem_newNames ns _ x).mp hy).2 hx)
  · have hlen : (resolveNames rows ns).1.length
        = (((resolveNames rows ns).1).map NamedRow.name).length := by simp
    rw [hlen, resolveNames_names, List.length_append, newNames_length]
    simp
  · intro n hn
    rw [resolveNames_names, List.mem_append]
    by_cases hx : n ∈ rows.map NamedRow.name
    · exact Or.inl hx
    · exact Or.inr ((mem_newNames ns _ n).mpr ⟨hn, hx⟩)

/-- C3: each genre, star and director name of a creation request is first
title-cased by the schema validator and then resolved against the lookup
table inside the transaction, creating a row only when the name is absent
— repeated names in one request and names already stored reuse the
existing (or just-flushed) row.  Hence when the lookup tables hold unique
names, they still do after the request, and on success each table grew by
exactly the number of genuinely new normalized names, every requested
name being present afterwards. -/
theorem create_movie_lookup_dedup (db : MovieDB) (raw : MovieCreateInput) (ck : Bool)
    (hg : (db.genres.map NamedRow.name).Nodup)
    (hs : (db.stars.map NamedRow.name).Nodup)
    (hd : (db.directors.map NamedRow.name).Nodup) :
    ((create_movie db raw ck).1.genres.map NamedRow.name).Nodup
    ∧ ((create_movie db raw ck).1.stars.map NamedRow.name).Nodup
    ∧ ((create_movie db raw ck).1.directors.map NamedRow.name).Nodup
    ∧ (∀ mv, (create_movie db raw ck).2 = .ok mv →
        (create_movie db raw ck).1.genres.length
            = db.genres.length
              + ((raw.genres.map pyTitle).toFinset
                  \ (db.genres.map NamedRow.name).toFinset).card
        ∧ (create_movie db raw ck).1.stars.length
            = db.stars.length
              + ((raw.stars.map pyTitle).toFinset
                  \ (db.stars.map NamedRow.name).toFinset).card
        ∧ (create_movie db raw ck).1.directors.length
            = db.directors.length
              + ((raw.directors.map pyTitle).toFinset
                  \ (db.directors.map NamedRow.name).toFinset).card
        ∧ (∀ n ∈ raw.genres.map pyTitle,
            n ∈ (create_movie db raw ck).1.genres.map NamedRow.name)
        ∧ (∀ n ∈ raw.stars.map pyTitle,
            n ∈ (create_movie db raw ck).1.stars.map NamedRow.name)
        ∧ (∀ n ∈ raw.directors.map pyTitle,
            n ∈ (create_movie db raw ck).1.directors.map NamedRow.name)) := by
  rcases hfind : db.movies.find? (fun m => m.name == raw.name && m.year == raw.year)
    with _ | m0
  · cases ck
    · simp only [create_movie, normalizeCreate, hfind, Bool.cond_false]
      exact ⟨hg, hs, hd, fun mv hmv => nomatch hmv⟩
    · simp only [create_movie, normalizeCreate, hfind, Bool.cond_true]
      obtain ⟨g1, g2, g3⟩ := resolveNames_props db.genres (raw.genres.map pyTitle) hg
      obtain ⟨s1, s2, s3⟩ := resolveNames_props db.stars (raw.stars.map pyTitle) hs
      obtain ⟨d1, d2, d3⟩ := resolveNames_props db.directors (raw.directors.map pyTitle) hd
      exact ⟨g1, s1, d1, fun mv _ => ⟨g2, s2, d2, g3, s3, d3⟩⟩
  · simp only [create_movie, normalizeCreate, hfind]
    exact ⟨hg, hs, hd, fun mv hmv => nomatch hmv⟩

/-- Store for the C3 witness: one genre "Action" already present. -/
def exDbW : MovieDB :=
  { movies := [], genres := [⟨1, "Action"⟩], directors := [], stars := []
    certifications := [], movieGenres := [], movieDirectors := [], movieStars := [] }

/-- Creation request repeating a genre name in two spellings plus one new
genre, a new star and a new director. -/
def exCreateW : MovieCreateInput :=
  { uuid := none, name := "Dune", year := 2021, time := 155, imdb := 8,
    votes := 100, meta_score := none, gross := none, description := "spice",
    price := 5, genres := ["action", "ACTION", "sci-fi"], stars := ["zendaya"],
    directors := ["denis villeneuve"], certification := "PG-13" }

/-- Witness for C3: concrete creation where "action" and "ACTION" both
normalize to the existing "Action" row, so only "Sci-Fi" is added. -/
theorem create_movie_lookup_dedup_witness :
    ((create_movie exDbW exCreateW true).1.genres.map NamedRow.name).Nodup
    ∧ ((create_movie exDbW exCreateW true).1.stars.map NamedRow.name).Nodup
    ∧ ((create_movie exDbW exCreateW true).1.directors.map NamedRow.name).Nodup
    ∧ (∀ mv, (create_movie exDbW exCreateW true).2 = .ok mv →
        (create_movie exDbW exCreateW true).1.genres.length
            = exDbW.genres.length
              + ((exCreateW.genres.map pyTitle).toFinset
                  \ (exDbW.genres.map NamedRow.name).toFinset).card
        ∧ (create_movie exDbW exCreateW true).1.stars.length
            = exDbW.stars.length
              + ((exCreateW.stars.map pyTitle).toFinset
                  \ (exDbW.stars.map NamedRow.name).toFinset).card
        ∧ (create_movie exDbW exCreateW true).1.directors.length
            = exDbW.directors.length
              + ((exCreateW.directors.map pyTitle).toFinset
                  \ (exDbW.directors.map NamedRow.name).toFinset).card
        ∧ (∀ n ∈ exCreateW.genres.map pyTitle,
            n ∈ (create_movie exDbW exCreateW true).1.genres.map NamedRow.name)
        ∧ (∀ n ∈ exCreateW.stars.map pyTitle,
            n ∈ (create_movie exDbW exCreateW true).1.stars.map NamedRow.name)
        ∧ (∀ n ∈ exCreateW.directors.map pyTitle,
            n ∈ (create_movie exDbW exCreateW true).1.directors.map NamedRow.name)) :=
  create_movie_lookup_dedup exDbW exCreateW true (by decide) (by decide) (by decide)

/-- Body of `PATCH /movies/{id}/` (`MovieUpdateSchema`): only scalar
fields, every one optional; `none` models a field absent from the request
(`model_dump(exclude_unset=True)` skips it).  The nullable columns
`meta_score` and `gross` can be explicitly set to NULL, hence the nested
option. -/
structure MovieUpdateInput where
  name : Option String := none
  year : Option Int := none
  time : Option Int := none
  imdb : Option Rat := none
  votes : Option Int := none
  meta_score : Option (Option Rat) := none
  gross : Option (Option Rat) := none
  description : Option String := none
  price : Option Rat := none
deriving DecidableEq

/-- The `setattr` loop of `update_movie`: each field present in the
request overwrites the movie attribute, absent fields are untouched. -/
def applyPatch (m : Movie) (u : MovieUpdateInput) : Movie :=
  { m with
    name := u.name.getD m.name
    year := u.year.getD m.year
    time := u.time.getD m.time
    imdb := u.imdb.getD m.imdb
    votes := u.votes.getD m.votes
    meta_score := u.meta_score.getD m.meta_score
    gross := u.gross.getD m.gross
    description := u.description.getD m.description
    price := u.price.getD m.price }

/-- Writing the mutated ORM object back: replace the first row with the
given id (the row `find?` located). -/
def setMovie : List Movie → Nat → Movie → List Movie
  | [], _, _ => []
  | x :: xs, i, m2 => if x.id == i then m2 :: xs else x :: setMovie xs i m2

/-- Handler of `PATCH /movies/{id}/` (`update_movie`): 404 when no movie
has the id; otherwise apply exactly the present fields and commit
(`commitOk = false` models an IntegrityError at commit: rollback and the
generic 400). -/
def update_movie (db : MovieDB) (movie_id : Nat) (u : MovieUpdateInput)
    (commitOk : Bool) : MovieDB × Except ApiError String :=
  match db.movies.find? (fun m => m.id == movie_id) with
  | none => (db, .error (.notFound "Movie with the given ID was not found."))
  | some m =>
    cond commitOk
      ({ db with movies := setMovie db.movies movie_id (applyPatch m u) },
       .ok "Movie updated successfully.")
      (db, .error (.badRequest "Invalid input data."))

/-- A successful `find?` by id splits the table so that `setMovie`
replaces exactly the found row. -/
theorem find?_setMovie (l : List Movie) (i : Nat) (m m2 : Movie)
    (h : l.find? (fun x => x.id == i) = some m) :
    ∃ pre post, l = pre ++ m :: post
      ∧ (∀ x ∈ pre, (x.id == i) = false)
      ∧ setMovie l i m2 = pre ++ m2 :: post := by
  induction l with
  | nil => simp at h
  | cons x xs ih =>
    cases hxi : (x.id == i) with
    | true =>
      simp only [List.find?, hxi] at h
      injection h with h; subst h
      exact ⟨[], xs, rfl, by simp, by simp [setMovie, hxi]⟩
    | false =>
      simp only [List.find?, hxi] at h
      obtain ⟨pre, post, h1, h2, h3⟩ := ih h
      refine ⟨x :: pre, post, by simp [h1], ?_, by simp [setMovie, hxi, h3]⟩
      intro y hy
      rcases List.mem_cons.mp hy with rfl | hy
      · exact hxi
      · exact h2 y hy

/-- C8: the PATCH handler writes exactly the scalar fields present in the
request and keeps every absent field; it touches no lookup table, no link
table and not the movie's certification, and replaces only the addressed
row; a missing id answers 404 and changes nothing. -/
theorem update_movie_patch_semantics (db : MovieDB) (movie_id : Nat)
    (u : MovieUpdateInput) :
    (db.movies.find? (fun m => m.id == movie_id) = none →
      update_movie db movie_id u true
        = (db, .error (.notFound "Movie with the given ID was not found.")))
    ∧ ∀ m, db.movies.find? (fun m0 => m0.id == movie_id) = some m →
        (update_movie db movie_id u true).2 = .ok "Movie updated successfully."
        ∧ (∃ pre post,
            db.movies = pre ++ m :: post
            ∧ (∀ x ∈ pre, (x.id == movie_id) = false)
            ∧ (update_movie db movie_id u true).1.movies
                = pre ++ applyPatch m u :: post)
        ∧ (update_movie db movie_id u true).1.genres = db.genres
        ∧ (update_movie db movie_id u true).1.directors = db.directors
        ∧ (update_movie db movie_id u true).1.stars = db.stars
        ∧ (update_movie db movie_id u true).1.certifications = db.certifications
        ∧ (update_movie db movie_id u true).1.movieGenres = db.movieGenres
        ∧ (update_movie db movie_id u true).1.movieDirectors = db.movieDirectors
        ∧ (update_movie db movie_id u true).1.movieStars = db.movieStars
        ∧ (applyPatch m u).certification_id = m.certification_id
        ∧ (applyPatch m u).id = m.id
        ∧ (applyPatch m u).uuid = m.uuid
        ∧ (applyPatch m u).name = u.name.getD m.name
        ∧ (applyPatch m u).year = u.year.getD m.year
        ∧ (applyPatch m u).time = u.time.getD m.time
        ∧ (applyPatch m u).imdb = u.imdb.getD m.imdb
        ∧ (applyPatch m u).votes = u.votes.getD m.votes
        ∧ (applyPatch m u).meta_score = u.meta_score.getD m.meta_score
        ∧ (applyPatch m u).gross = u.gross.getD m.gross
        ∧ (applyPatch m u).description = u.description.getD m.description
        ∧ (applyPatch m u).price = u.price.getD m.price := by
  constructor
  · intro h
    simp only [update_movie, h]
  · intro m hm
    obtain ⟨pre, post, h1, h2, h3⟩ := find?_setMovie db.movies movie_id m (applyPatch m u) hm
    have hu : update_movie db movie_id u true
        = ({ db with movies := setMovie db.movies movie_id (applyPatch m u) },
           .ok "Movie updated successfully.") := by
      simp only [update_movie, hm, Bool.cond_true]
    rw [hu]
    exact ⟨rfl, ⟨pre, post, h1, h2, h3⟩, rfl, rfl, rfl, rfl, rfl, rfl, rfl,
      rfl, rfl, rfl, rfl, rfl, rfl, rfl, rfl, rfl, rfl, rfl, rfl⟩

/-- Patch setting only the name and the price. -/
def exPatch : MovieUpdateInput := { name := some "Renamed", price := some 20 }

/-- Witness for C8: a missing id (99) on `exDB3` answers the 404 and a
present id (2) answers the success message. -/
theorem update_movie_patch_semantics_witness :
    update_movie exDB3 99 exPatch true
      = (exDB3, .error (.notFound "Movie with the given ID was not found."))
    ∧ (update_movie exDB3 2 exPatch true).2 = .ok "Movie updated successfully." :=
  ⟨(update_movie_patch_semantics exDB3 99 exPatch).1 (by decide),
   ((update_movie_patch_semantics exDB3 2 exPatch).2
      { id := 2, uuid := "a2", name := "Second", year := 2002, time := 101,
        imdb := 6, votes := 20, meta_score := none, gross := none,
        description := "two", price := 2, certification_id := 1 } (by decide)).1⟩

/-- User group names of the account model (`UserGroupEnum`). -/
inductive UserGroup where
  | user
  | moderator
  | admin
deriving DecidableEq

/-- Modelled from the spec: row of the `users` table (`UserModel` lives in
the accounts models, which are not among the provided sources); §3 gives
an identity record with an active flag and a role group. -/
structure UserRow where
  id : Nat
  is_active : Bool
  group : UserGroup
deriving DecidableEq

/-- Modelled from the spec: row of the user-profile table
(`UserProfileModel`): personal attributes and an avatar reference for
exactly one user. -/
structure ProfileRow where
  id : Nat
  user_id : Nat
  first_name : String
  last_name : String
  gender : String
  date_of_birth : String
  info : String
  avatar : String
deriving DecidableEq

/-- Form fields of the profile-creation request (`ProfileCreateSchema`),
with the uploaded avatar reduced to its filename. -/
structure ProfileInput where
  first_name : String
  last_name : String
  gender : String
  date_of_birth : String
  info : String
  avatarFilename : String
deriving DecidableEq

/-- Modelled from the spec: the account-side store. -/
structure AccountsDB where
  users : List UserRow
  profiles : List ProfileRow
deriving DecidableEq

/-- The role gate of `create_profile` for a caller editing another user:
forbidden when the token user is missing or a plain user. -/
def authForbidden (db : AccountsDB) (user_id tu : Nat) : Bool :=
  if user_id == tu then false
  else
    match db.users.find? (fun u => u.id == tu) with
    | none => true
    | some tuser => tuser.group == UserGroup.user

/-- The profile row `create_profile` inserts on success: generated id,
the addressed user, the form fields and the derived avatar key. -/
def newProfileRow (db : AccountsDB) (u : UserRow) (pd : ProfileInput) : ProfileRow :=
  { id := freshId (db.profiles.map ProfileRow.id)
    user_id := u.id
    first_name := pd.first_name
    last_name := pd.last_name
    gender := pd.gender
    date_of_birth := pd.date_of_birth
    info := pd.info
    avatar := "avatars/" ++ toString u.id ++ "_" ++ pd.avatarFilename }

/-- Handler of `POST /profiles/users/{user_id}/profile/`
(`create_profile`).  `tokenUserId` is the decoded access token
(`none` models a token the JWT manager rejects), `s3ok` the avatar-upload
outcome.  Order as in the source: token decode, role gate, user lookup
and active check, existing-profile check, avatar upload, insert and
commit. -/
def create_profile (db : AccountsDB) (user_id : Nat) (tokenUserId : Option Nat)
    (s3ok : Bool) (pd : ProfileInput) : AccountsDB × Except ApiError ProfileRow :=
  match tokenUserId with
  | none => (db, .error (.unauthorized "Invalid token."))
  | some tu =>
    cond (authForbidden db user_id tu)
      (db, .error (.forbidden
        ("You don" ++ sqch ++ "t have permission to edit this profile.")))
      (match db.users.find? (fun u => u.id == user_id) with
       | none => (db, .error (.unauthorized "User not found or not active."))
       | some user =>
         cond user.is_active
           (match db.profiles.find? (fun p => p.user_id == user.id) with
            | some _ => (db, .error (.badRequest "User already has a profile."))
            | none =>
              cond s3ok
                ({ db with profiles := db.profiles ++ [newProfileRow db user pd] },
                 .ok (newProfileRow db user pd))
                (db, .error
                  (.internal "Failed to upload avatar. Please try again later.")))
           (db, .error (.unauthorized "User not found or not active.")))

/-- Every outcome of `create_profile` either leaves the store unchanged or
appends one profile for a user that had none. -/
theorem create_profile_state (db : AccountsDB) (uid : Nat) (tok : Option Nat)
    (s3 : Bool) (pd : ProfileInput) :
    (create_profile db uid tok s3 pd).1 = db
    ∨ ∃ u, db.users.find? (fun x => x.id == uid) = some u
        ∧ db.profiles.find? (fun x => x.user_id == u.id) = none
        ∧ (create_profile db uid tok s3 pd).1
            = { db with profiles := db.profiles ++ [newProfileRow db u pd] } := by
  rcases tok with _ | tu
  · exact Or.inl rfl
  · cases hA : authForbidden db uid tu
    · rcases hU : db.users.find? (fun x => x.id == uid) with _ | u
      · exact Or.inl (by simp only [create_profile, hA, Bool.cond_false, hU])
      · cases hAct : u.is_active
        · exact Or.inl
            (by simp only [create_profile, hA, Bool.cond_false, hU, hAct, Bool.cond_false])
        · rcases hP : db.profiles.find? (fun x => x.user_id == u.id) with _ | p
          · cases s3
            · exact Or.inl (by simp only [create_profile, hA, Bool.cond_false, hU,
                hAct, Bool.cond_true, hP, Bool.cond_false])
            · refine Or.inr ⟨u, hU, hP, ?_⟩
              simp only [create_profile, hA, Bool.cond_false, hU, hAct,
                Bool.cond_true, hP]
          · exact Or.inl (by simp only [create_profile, hA, Bool.cond_false, hU,
              hAct, Bool.cond_true, hP])
    · exact Or.inl (by simp only [create_profile, hA, Bool.cond_true])

/-- C9: a profile-creation request for a user that already has a profile
fails with the 400 "User already has a profile." and writes nothing; and
whatever the request, a store where each user has at most one profile
keeps that invariant. -/
theorem profile_creation_unique (db : AccountsDB) (uid : Nat) (s3 : Bool)
    (pd : ProfileInput) (u : UserRow) (p : ProfileRow)
    (hu : db.users.find? (fun x => x.id == uid) = some u)
    (hact : u.is_active = true)
    (hp : db.profiles.find? (fun x => x.user_id == u.id) = some p) :
    create_profile db uid (some uid) s3 pd
      = (db, .error (.badRequest "User already has a profile."))
    ∧ ∀ (tok : Option Nat) (s3b : Bool) (pdb : ProfileInput),
        db.profiles.Pairwise (fun a b => a.user_id ≠ b.user_id) →
        ((create_profile db uid tok s3b pdb).1).profiles.Pairwise
          (fun a b => a.user_id ≠ b.user_id) := by
  constructor
  · have hA : authForbidden db uid uid = false := by simp [authForbidden]
    simp only [create_profile, hA, Bool.cond_false, hu, hact, Bool.cond_true, hp]
  · intro tok s3b pdb hpw
    rcases create_profile_state db uid tok s3b pdb with hst | ⟨u2, hu2, hp2, hst⟩
    · rw [hst]; exact hpw
    · rw [hst]
      rw [List.pairwise_append]
      refine ⟨hpw, by simp, ?_⟩
      intro a ha b hb
      rcases List.mem_singleton.mp hb with rfl
      intro hEq
      exact (List.find?_eq_none.mp hp2 a ha) (by simp [newProfileRow] at hEq; simp [hEq])

/-- Account store with one active plain user who already has a profile. -/
def exAccDb : AccountsDB :=
  { users := [⟨1, true, UserGroup.user⟩]
    profiles := [⟨7, 1, "Ann", "Lee", "woman", "1990-01-01", "hi", "avatars/1_a.png"⟩] }

/-- Profile form used in the C9 witness. -/
def exProfileIn : ProfileInput :=
  ⟨"Ann", "Lee", "woman", "1990-01-01", "hi", "a.png"⟩

/-- Witness for C9: the user with id 1 of `exAccDb` already has a
profile, so creating another one answers the 400 and leaves the store as
it was. -/
theorem profile_creation_unique_witness :
    create_profile exAccDb 1 (some 1) true exProfileIn
      = (exAccDb, .error (.badRequest "User already has a profile.")) :=
  (profile_creation_unique exAccDb 1 true exProfileIn
    ⟨1, true, UserGroup.user⟩
    ⟨7, 1, "Ann", "Lee", "woman", "1990-01-01", "hi", "avatars/1_a.png"⟩
    (by decide) rfl (by decide)).1
